import Mathlib

/-
Shallow embedding of qfs_filelock.py (Qumulo/filelock): the retention parser,
the lock orchestrator (lock_file), the target resolver (get_fileinfo), the
notification consumer (stream_notifications) and the daemon supervisor loop
(run_daemon), together with theorems settling the specification claims.
-/

namespace Qfs

/-- Python exception values that can arise in the modelled code paths. -/
inductive PyExc where
| valueError
| requestException
| keyError
| typeError
| nameError
| otherExc (code : Nat)
deriving DecidableEq, Repr

/-- Result of running a Python fragment: normal return or a raised exception. -/
inductive PResult (A : Type) where
| ret (a : A)
| raise (e : PyExc)
deriving DecidableEq, Repr

/-- os.path.isabs on POSIX: the path starts with a slash. -/
def isAbs (s : String) : Bool :=
match s.data with
| '/' :: _ => true
| _ => false

/-- One step of the fixpoint slash collapse: keep a character unless it is a
slash immediately preceding an already-emitted slash. -/
def collapseStep (c : Char) (acc : List Char) : List Char :=
match acc with
| [] => [c]
| d :: rest => if c = '/' && d = '/' then d :: rest else c :: d :: rest

/-- Model of re.sub applied to the pattern "one or more slashes" with a single
slash as replacement: every maximal run of slashes becomes one slash. -/
def collapseSlashes (l : List Char) : List Char := l.foldr collapseStep []

/-- String version of the full slash collapse used inside lock_file. -/
def collapseStr (s : String) : String := String.mk (collapseSlashes s.data)

/-- Python str.replace applied to a double slash with a single-slash
replacement: one left-to-right pass, each non-overlapping occurrence of two
slashes becomes one; the scan resumes after the replacement. -/
def pyReplaceDS : List Char → List Char
| '/' :: '/' :: rest => '/' :: pyReplaceDS rest
| c :: rest => c :: pyReplaceDS rest
| [] => []

/-- String version of the consumer's single-pass double-slash replacement. -/
def pyReplaceStr (s : String) : String := String.mk (pyReplaceDS s.data)

/-- Whether a character list contains two adjacent slashes. -/
def hasDS : List Char → Bool
| [] => false
| [_] => false
| c :: d :: rest => (c = '/' && d = '/') || hasDS (d :: rest)

/-- Whether a string contains a run of repeated path separators. -/
def hasDSStr (s : String) : Bool := hasDS s.data

/-- The in-memory dedup cache recent_locks: association list, newest first;
assignment prepends, lookup returns the newest binding. -/
abbrev Cache := List (String × Int)

/-- Lookup in the dedup cache (Python dict membership plus indexing). -/
def cacheGet : Cache → String → Option Int
| [], _ => none
| (k, v) :: rest, q => if q = k then some v else cacheGet rest q

/-- Assignment into the dedup cache (Python dict item assignment: the new
binding shadows any older one; nothing is ever removed). -/
def cacheSet (c : Cache) (k : String) (v : Int) : Cache := (k, v) :: c

/- ---------------------------------------------------------------------------
Dates: proleptic Gregorian day arithmetic as used by Python datetime.
--------------------------------------------------------------------------- -/

/-- Days since 1970-01-01 of a civil date (proleptic Gregorian). -/
def civilToDays (y m d : Int) : Int :=
let y1 := if m ≤ 2 then y - 1 else y
let era := Int.fdiv y1 400
let yoe := y1 - era * 400
let mAdj := if m > 2 then m - 3 else m + 9
let doy := Int.fdiv (153 * mAdj + 2) 5 + d - 1
let doe := yoe * 365 + Int.fdiv yoe 4 - Int.fdiv yoe 100 + doy
era * 146097 + doe - 719468

/-- Civil date (year, month, day) of a count of days since 1970-01-01. -/
def daysToCivil (z0 : Int) : Int × Int × Int :=
let z := z0 + 719468
let era := Int.fdiv z 146097
let doe := z - era * 146097
let yoe := Int.fdiv (doe - Int.fdiv doe 1460 + Int.fdiv doe 36524 - Int.fdiv doe 146096) 365
let y1 := yoe + era * 400
let doy := doe - (365 * yoe + Int.fdiv yoe 4 - Int.fdiv yoe 100)
let mp := Int.fdiv (5 * doy + 2) 153
let d := doy - Int.fdiv (153 * mp + 2) 5 + 1
let m := if mp < 10 then mp + 3 else mp - 9
let y := if m ≤ 2 then y1 + 1 else y1
(y, m, d)

/-- A Python datetime value: day count since the epoch, seconds within the
day, and microseconds. -/
structure PyDateTime where
days : Int
secs : Nat
micros : Nat
deriving DecidableEq, Repr

/-- Smallest day count a Python datetime can hold (year 1). -/
def pyMinDays : Int := civilToDays 1 1 1

/-- Largest day count a Python datetime can hold (year 9999). -/
def pyMaxDays : Int := civilToDays 9999 12 31

/-- datetime plus timedelta(days=n): fails (OverflowError) outside the
representable year range 1..9999. -/
def pyAddDays (dt : PyDateTime) (n : Int) : Option PyDateTime :=
let d := dt.days + n
if pyMinDays ≤ d ∧ d ≤ pyMaxDays then some ⟨d, dt.secs, dt.micros⟩ else none

/-- Two-digit zero-padded decimal rendering. -/
def pad2 (n : Nat) : String := if n < 10 then "0" ++ toString n else toString n

/-- Four-digit zero-padded decimal rendering. -/
def pad4 (n : Nat) : String :=
if n < 10 then "000" ++ toString n
else if n < 100 then "00" ++ toString n
else if n < 1000 then "0" ++ toString n
else toString n

/-- datetime.replace(microsecond=0).isoformat() + "Z": microseconds are
dropped, so isoformat prints no fractional part, and a literal Z follows. -/
def renderZ (dt : PyDateTime) : String :=
let c := daysToCivil dt.days
let h := dt.secs / 3600
let mi := dt.secs % 3600 / 60
let se := dt.secs % 60
pad4 c.1.toNat ++ "-" ++ pad2 c.2.1.toNat ++ "-" ++ pad2 c.2.2.toNat ++ "T" ++
  pad2 h ++ ":" ++ pad2 mi ++ ":" ++ pad2 se ++ "Z"

/-- Python str.endswith with a one-character suffix. -/
def pyEndsWith (s : String) (c : Char) : Bool := s.data.getLast? = some c

/-- Python slicing off the final character. -/
def pyDropLast (s : String) : String := String.mk s.data.dropLast

/-- ASCII whitespace stripped by Python int(). -/
def isPySpace (c : Char) : Bool := c = ' ' || c = '\t' || c = '\n' || c = '\r'

/-- Strip whitespace from both ends of a character list. -/
def pyStrip (l : List Char) : List Char :=
((l.dropWhile isPySpace).reverse.dropWhile isPySpace).reverse

/-- Nonempty all-ASCII-digit character list. -/
def allDigitsL (l : List Char) : Bool := !l.isEmpty && l.all Char.isDigit

/-- Value of an ASCII digit list read as a decimal number. -/
def natOfDigits (l : List Char) : Nat := l.foldl (fun a c => a * 10 + (c.toNat - 48)) 0

/-- Python int() on a string: optional surrounding whitespace, an optional
sign, then decimal digits (ASCII model). Returns none where int() raises. -/
def pyInt (s : String) : Option Int :=
match pyStrip s.data with
| '-' :: rest => if allDigitsL rest then some (-(natOfDigits rest : Int)) else none
| '+' :: rest => if allDigitsL rest then some ((natOfDigits rest : Nat) : Int) else none
| l => if allDigitsL l then some ((natOfDigits l : Nat) : Int) else none

/-- Days in a month of the proleptic Gregorian calendar. -/
def daysInMonth (y m : Int) : Int :=
if m = 2 then
  if Int.emod y 4 = 0 ∧ (Int.emod y 100 ≠ 0 ∨ Int.emod y 400 = 0) then 29 else 28
else if m = 4 ∨ m = 6 ∨ m = 9 ∨ m = 11 then 30
else 31

/-- Split a character list on dashes (the three fields of the date format). -/
def splitOnDash : List Char → List (List Char)
| [] => [[]]
| c :: rest =>
  match splitOnDash rest with
  | [] => [[]]
  | g :: gs => if c = '-' then [] :: g :: gs else (c :: g) :: gs

/-- datetime.strptime with the year-month-day format: a four-digit year, a
dash, a one-or-two-digit month in 1..12, a dash, a one-or-two-digit day valid
for that month; the whole string must be consumed. Returns the day count. -/
def strptimeYmd (s : String) : Option Int :=
match splitOnDash s.data with
| [ys, ms, ds] =>
  if ys.length = 4 ∧ allDigitsL ys = true ∧ ms.length ≤ 2 ∧ allDigitsL ms = true ∧
      ds.length ≤ 2 ∧ allDigitsL ds = true then
    let y : Int := (natOfDigits ys : Nat)
    let m : Int := (natOfDigits ms : Nat)
    let d : Int := (natOfDigits ds : Nat)
    if 1 ≤ y ∧ 1 ≤ m ∧ m ≤ 12 ∧ 1 ≤ d ∧ d ≤ daysInMonth y m then
      some (civilToDays y m d)
    else none
  else none
| _ => none

/-- parse_retention from qfs_filelock.py: None yields None; a trailing d, m or
y adds days, months times 30 days, or years times 365 days to utcnow; any
other string must be a year-month-day date at midnight; every failure
(non-integer magnitude, malformed date, datetime overflow) is caught and
yields None; the output is truncated to whole seconds and suffixed with Z. -/
def parse_retention (nowUtc : PyDateTime) (retention_period : Option String) : Option String :=
match retention_period with
| none => none
| some s =>
  if pyEndsWith s 'd' then
    (pyInt (pyDropLast s)).bind fun n => (pyAddDays nowUtc n).map renderZ
  else if pyEndsWith s 'm' then
    (pyInt (pyDropLast s)).bind fun n => (pyAddDays nowUtc (n * 30)).map renderZ
  else if pyEndsWith s 'y' then
    (pyInt (pyDropLast s)).bind fun n => (pyAddDays nowUtc (n * 365)).map renderZ
  else
    (strptimeYmd s).map fun d => renderZ ⟨d, 0, 0⟩

/- ---------------------------------------------------------------------------
lock_file: the lock orchestrator.
--------------------------------------------------------------------------- -/

/-- The command-line/config arguments consumed by the modelled functions. -/
structure Args where
file_num : Option String
directory_path : Option String
recursive : Bool
retention : Option String
legal_hold : Bool
output : Option String
deriving DecidableEq, Repr

/-- Python truthiness of an optional string argument: None and the empty
string are falsy. -/
def truthyOpt : Option String → Bool
| none => false
| some s => s ≠ ""

/-- A file-attribute payload as seen after the tuple unwrap in the source:
whether it is a dict, and the value of its type key when present (a missing
key makes the indexing raise KeyError). -/
structure AttrVal where
isDict : Bool
type_ : Option String
deriving DecidableEq, Repr

/-- Observable calls the modelled code makes: collaborator RPCs plus the
internal invocation of lock_file by the consumer. -/
inductive CallEv where
| getFileAttrById (id : String)
| getFileAttrByPath (p : String)
| loginCall
| openChangeStream (path : Option String) (id_ : Option String)
| getFileAttr (p : String)
| modifyFileLock (p : String) (retention : Option String) (legalHold : Bool)
| lockFileCall (p : String)
deriving DecidableEq, Repr

/-- Environment of one lock_file call: outcomes of the first attribute fetch,
of the reconnection steps (config reload, login, second fetch), of each lock
RPC attempt, and the value of utcnow read by parse_retention. -/
structure LockEnv where
attrFetch1 : Except PyExc AttrVal
loadConfig : Except PyExc Unit
login : Except PyExc Unit
attrFetch2 : Except PyExc AttrVal
lockRPC : Nat → Except PyExc Unit
nowUtc : PyDateTime

/-- How one lock_file call ended, mapped to the spec's result vocabulary. -/
inductive LockResult where
| notAbsolute
| skippedCooldown
| malformedAttr
| skippedDirectory
| locked
| failedMaxRetries
| caughtException (e : PyExc)
deriving DecidableEq, Repr

/-- Observable outcome of a lock_file call: result, updated dedup cache,
calls issued, and the sleeps performed (seconds). -/
structure LockOutput where
result : LockResult
cache : Cache
calls : List CallEv
sleeps : List Nat
deriving DecidableEq, Repr

/-- The attribute stage of lock_file: try the fetch; on failure reload the
configuration, re-login and fetch once more; uncaught failures of the
reconnection chain propagate to the outer handler. Also returns the calls
made. -/
def attrStage (env : LockEnv) (p : String) : PResult AttrVal × List CallEv :=
match env.attrFetch1 with
| .ok v => (.ret v, [.getFileAttr p])
| .error _ =>
  match env.loadConfig with
  | .error e => (.raise e, [.getFileAttr p])
  | .ok _ =>
    match env.login with
    | .error e => (.raise e, [.getFileAttr p, .loginCall])
    | .ok _ =>
      match env.attrFetch2 with
      | .error e => (.raise e, [.getFileAttr p, .loginCall, .getFileAttr p])
      | .ok v => (.ret v, [.getFileAttr p, .loginCall, .getFileAttr p])

/-- The retry loop of lock_file: while attempt is below three, issue the lock
RPC; success breaks out, failure increments the attempt counter and sleeps two
seconds. Returns success flag, calls and sleeps; the fuel is three minus the
attempt counter. -/
def lockLoopAux (env : LockEnv) (p : String) (ret : Option String) (lh : Bool) :
    Nat → Nat → Bool × List CallEv × List Nat
| _, 0 => (false, [], [])
| attempt, fuel + 1 =>
  match env.lockRPC attempt with
  | .ok _ => (true, [.modifyFileLock p ret lh], [])
  | .error _ =>
    let r := lockLoopAux env p ret lh (attempt + 1) fuel
    (r.1, .modifyFileLock p ret lh :: r.2.1, 2 :: r.2.2)

/-- The retry loop started at attempt zero with the fixed bound of three. -/
def lockLoop (env : LockEnv) (p : String) (ret : Option String) (lh : Bool) :
    Bool × List CallEv × List Nat :=
lockLoopAux env p ret lh 0 3

/-- The cooldown test of lock_file: the collapsed path is in the dedup cache
and the recorded instant is less than the cooldown window ago. -/
def cooldownHit (cache : Cache) (fp : String) (current_time cooldown : Int) : Bool :=
match cacheGet cache fp with
| some t => decide (current_time - t < cooldown)
| none => false

/-- The retention period resolved inside lock_file: parse_retention is called
only when the retention argument is truthy. -/
def retentionOf (env : LockEnv) (args : Args) : Option String :=
if truthyOpt args.retention then parse_retention env.nowUtc args.retention else none

/-- lock_file after the absolute-path and cooldown checks passed: attribute
stage, dict-shape and directory checks, retention resolution, then the
bounded retry loop; a success records the entry time in the cache. -/
def lockAfterCooldown (env : LockEnv) (args : Args) (fp : String) (cache : Cache)
    (current_time : Int) : PResult (LockResult × Cache) × List CallEv × List Nat :=
match attrStage env fp with
| (.raise e, cs) => (.raise e, cs, [])
| (.ret v, cs) =>
  if ¬ v.isDict then (.ret (.malformedAttr, cache), cs, [])
  else
    match v.type_ with
    | none => (.raise .keyError, cs, [])
    | some ty =>
      if ty = "FS_FILE_TYPE_DIRECTORY" then (.ret (.skippedDirectory, cache), cs, [])
      else
        let lr := lockLoop env fp (retentionOf env args) args.legal_hold
        if lr.1 then (.ret (.locked, cacheSet cache fp current_time), cs ++ lr.2.1, lr.2.2)
        else (.ret (.failedMaxRetries, cache), cs ++ lr.2.1, lr.2.2)

/-- Body of lock_file inside its outer try block (exceptions propagate as
raise): absolute-path check, slash collapse, cooldown check against the dedup
cache, then the attribute and locking stages. -/
def lock_fileP (env : LockEnv) (args : Args) (full_path : String) (cache : Cache)
    (current_time : Int) (cooldown : Int) :
    PResult (LockResult × Cache) × List CallEv × List Nat :=
if ¬ isAbs full_path then (.ret (.notAbsolute, cache), [], [])
else
  let fp := collapseStr full_path
  if cooldownHit cache fp current_time cooldown then (.ret (.skippedCooldown, cache), [], [])
  else lockAfterCooldown env args fp cache current_time

/-- lock_file with its outer try/except in place, in a form whose type still
admits a propagated exception: the handler turns every raise from the body
into a normal return that leaves the cache untouched. -/
def lock_fileExc (env : LockEnv) (args : Args) (full_path : String) (cache : Cache)
    (current_time : Int) (cooldown : Int) : PResult LockOutput :=
match lock_fileP env args full_path cache current_time cooldown with
| (.ret rc, cs, sl) => .ret ⟨rc.1, rc.2, cs, sl⟩
| (.raise e, cs, sl) => .ret ⟨.caughtException e, cache, cs, sl⟩

/-- lock_file as its callers observe it: always a normal return. -/
def lock_file (env : LockEnv) (args : Args) (full_path : String) (cache : Cache)
    (current_time : Int) (cooldown : Int) : LockOutput :=
match lock_fileExc env args full_path cache current_time cooldown with
| .ret o => o
| .raise e => ⟨.caughtException e, cache, [], []⟩

/-- Number of lock RPCs in a call trace. -/
def countModify (l : List CallEv) : Nat :=
l.countP fun c => match c with
  | .modifyFileLock _ _ _ => true
  | _ => false

/- ---------------------------------------------------------------------------
get_fileinfo: the target resolver.
--------------------------------------------------------------------------- -/

/-- An attribute payload as used by the resolver: the id and path keys when
present (a missing key makes the indexing raise KeyError). -/
structure RAttr where
id? : Option String
path? : Option String
deriving DecidableEq, Repr

/-- Environment of the resolver: the collaborator attribute query keyed by
identifier or by path; an error is a raised exception (object missing,
transport fault). -/
structure ResolveEnv where
attrById : String → Except PyExc RAttr
attrByPath : String → Except PyExc RAttr

/-- get_fileinfo from qfs_filelock.py: resolve by identifier when one is
truthy, else by path when one is truthy, else raise ValueError; every raised
exception is caught and mapped to the sentinel pair. Also returns the
collaborator calls made. -/
def get_fileinfo (env : ResolveEnv) (file_number directory_path : Option String) :
    (String × String) × List CallEv :=
if truthyOpt file_number then
  let fn := file_number.getD ""
  match env.attrById fn with
  | .error _ => (("Error_ID", "Error_Path"), [.getFileAttrById fn])
  | .ok r =>
    match r.path? with
    | none => (("Error_ID", "Error_Path"), [.getFileAttrById fn])
    | some p => ((fn, p), [.getFileAttrById fn])
else if truthyOpt directory_path then
  let dp := directory_path.getD ""
  match env.attrByPath dp with
  | .error _ => (("Error_ID", "Error_Path"), [.getFileAttrByPath dp])
  | .ok r =>
    match r.id?, r.path? with
    | some i, some p => ((i, p), [.getFileAttrByPath dp])
    | _, _ => (("Error_ID", "Error_Path"), [.getFileAttrByPath dp])
else (("Error_ID", "Error_Path"), [])

/- ---------------------------------------------------------------------------
stream_notifications: the notification consumer.
--------------------------------------------------------------------------- -/

/-- One change-event dict from the stream: the values of its type and path
keys as returned by dict.get (None when absent). -/
structure CEDict where
type? : Option String
path? : Option String
deriving DecidableEq, Repr

/-- One item yielded by the change iterator: a list of event dicts, or a
payload of unexpected shape which is logged and dropped. -/
inductive Change where
| batch (items : List CEDict)
| nonList
deriving DecidableEq, Repr

/-- Python str() of a dict.get result: None prints as the word None. -/
def strOfOpt : Option String → String
| none => "None"
| some s => s

/-- Environment of one consumer cycle: the resolver environment, the change
stream (opening may raise; otherwise it yields a list of items and then
either ends or raises mid-iteration), and a lock_file environment per handled
event. -/
structure StreamEnv where
res : ResolveEnv
openStream : Except PyExc (List Change × Option PyExc)
lockEnvs : Nat → LockEnv

/-- How one consumer cycle ended: normal exhaustion of the stream, or an
exception caught by the consumer's own handler. -/
inductive ConsResult where
| finished
| caughtError (e : PyExc)
deriving DecidableEq, Repr

/-- Observable outcome of one consumer cycle. -/
structure ConsOut where
result : ConsResult
cache : Cache
calls : List CallEv
deriving DecidableEq, Repr

/-- Handling of the dicts of one batch: events of a kind in the filter have
the absolute path constructed by joining the target path and the event path
with a slash and applying the single-pass double-slash replacement, then
lock_file is invoked; other events are dropped. Returns the next event index,
the updated cache and the calls. -/
def processItems (env : StreamEnv) (args : Args) (times : Nat → Int) (filePath : String) :
    List CEDict → Nat → Cache → Nat × Cache × List CallEv
| [], k, cache => (k, cache, [])
| d :: rest, k, cache =>
  if d.type? = some "child_file_added" then
    let newPath := pyReplaceStr (filePath ++ "/" ++ strOfOpt d.path?)
    let lo := lock_file (env.lockEnvs k) args newPath cache (times k) 5
    let r := processItems env args times filePath rest (k + 1) lo.cache
    (r.1, r.2.1, (CallEv.lockFileCall newPath :: lo.calls) ++ r.2.2)
  else processItems env args times filePath rest k cache

/-- Handling of the stream items: list-shaped items are processed dict by
dict, anything else is logged and dropped. -/
def processChanges (env : StreamEnv) (args : Args) (times : Nat → Int) (filePath : String) :
    List Change → Nat → Cache → Cache × List CallEv
| [], _, cache => (cache, [])
| .nonList :: rest, k, cache => processChanges env args times filePath rest k cache
| .batch items :: rest, k, cache =>
  let r := processItems env args times filePath items k cache
  let r2 := processChanges env args times filePath rest r.1 r.2.1
  (r2.1, r.2.2 ++ r2.2)

/-- The streaming phase of the consumer, after target resolution chose the
path or identifier to listen on. -/
def streamPhase (env : StreamEnv) (args : Args) (times : Nat → Int) (cache : Cache)
    (fp : String) (path id_ : Option String) (rcs : List CallEv) : ConsOut :=
match env.openStream with
| .error e => ⟨.caughtError e, cache, rcs ++ [.openChangeStream path id_]⟩
| .ok st =>
  let r := processChanges env args times fp st.1 0 cache
  match st.2 with
  | some e => ⟨.caughtError e, r.1, rcs ++ [.openChangeStream path id_] ++ r.2⟩
  | none => ⟨.finished, r.1, rcs ++ [.openChangeStream path id_] ++ r.2⟩

/-- stream_notifications from qfs_filelock.py: resolve the target (listening
by identifier when file_num is truthy, else by path), open the change
listener, and process the stream; every exception is caught by the consumer's
own handler, so the call always returns normally. -/
def stream_notifications (env : StreamEnv) (args : Args) (times : Nat → Int)
    (cache : Cache) : ConsOut :=
if truthyOpt args.file_num then
  let r := get_fileinfo env.res args.file_num args.directory_path
  streamPhase env args times cache r.1.2 none (some r.1.1) r.2
else if truthyOpt args.directory_path then
  let r := get_fileinfo env.res args.file_num args.directory_path
  streamPhase env args times cache r.1.2 (some r.1.2) none r.2
else ⟨.caughtError .valueError, cache, []⟩

/- ---------------------------------------------------------------------------
run_daemon: the supervisor loop.
--------------------------------------------------------------------------- -/

/-- How one iteration of the supervisor loop ends: a sleep followed by the
next iteration, or process exit (present in the type so that its absence is a
statement about the code, which has no exit path inside the loop). -/
inductive DaemonStep where
| sleepThenContinue (secs : Nat)
| exited (code : Nat)
deriving DecidableEq, Repr

/-- One iteration of the run_daemon while-loop: with a truthy target argument
it resolves the target, shows the header (whose failures are swallowed
internally), runs one consumer cycle — which catches its own exceptions — and
sleeps the polling interval; without a target argument the body raises, the
handler catches it and sleeps five seconds. The loop never exits. -/
def daemon_iteration (env : StreamEnv) (args : Args) (interval : Nat)
    (times : Nat → Int) (cache : Cache) : DaemonStep × Cache × List CallEv :=
if truthyOpt args.file_num || truthyOpt args.directory_path then
  let r := get_fileinfo env.res args.file_num args.directory_path
  let co := stream_notifications env args times cache
  (.sleepThenContinue interval, co.cache, r.2 ++ co.calls)
else (.sleepThenContinue 5, cache, [])

/- ---------------------------------------------------------------------------
Helper lemmas.
--------------------------------------------------------------------------- -/

/-- The attribute payload that lock_file ends up working with, when the
attribute stage does not raise: the first fetch when it succeeded, else the
fetch after reconnection when the whole reconnection chain succeeded. -/
def attrFetched (env : LockEnv) : Option AttrVal :=
match env.attrFetch1 with
| .ok v => some v
| .error _ =>
  match env.loadConfig, env.login, env.attrFetch2 with
  | .ok _, .ok _, .ok v => some v
  | _, _, _ => none

theorem cacheGet_cacheSet (c : Cache) (k q : String) (v : Int) :
    cacheGet (cacheSet c k v) q = if q = k then some v else cacheGet c q := by
  simp [cacheSet, cacheGet]

theorem hasDS_collapseStep (c : Char) (acc : List Char) (h : hasDS acc = false) :
    hasDS (collapseStep c acc) = false := by
  cases acc with
  | nil => simp [collapseStep, hasDS]
  | cons d rest =>
    by_cases hcd : (c = '/' && d = '/') = true
    · simp [collapseStep, hcd, h]
    · have hcd2 : (c = '/' && d = '/') = false := by
        simpa using hcd
      simp [collapseStep, hcd2, hasDS, h]

theorem hasDS_collapseSlashes (l : List Char) : hasDS (collapseSlashes l) = false := by
  induction l with
  | nil => rfl
  | cons c l ih =>
    have : collapseSlashes (c :: l) = collapseStep c (collapseSlashes l) := rfl
    rw [this]
    exact hasDS_collapseStep c _ ih

theorem hasDSStr_collapseStr (s : String) : hasDSStr (collapseStr s) = false := by
  simpa [hasDSStr, collapseStr] using hasDS_collapseSlashes s.data

/-- Every call recorded by the retry loop is a lock RPC on the loop's path
with the loop's retention and hold arguments. -/
theorem lockLoopAux_calls (env : LockEnv) (p : String) (ret : Option String) (lh : Bool) :
    ∀ fuel attempt c, c ∈ (lockLoopAux env p ret lh attempt fuel).2.1 →
      c = CallEv.modifyFileLock p ret lh := by
  intro fuel
  induction fuel with
  | zero => intro attempt c h; simp [lockLoopAux] at h
  | succ n ih =>
    intro attempt c h
    cases hr : env.lockRPC attempt with
    | ok u => simp [lockLoopAux, hr] at h; simp [h]
    | error e =>
      simp [lockLoopAux, hr] at h
      rcases h with h | h
      · simp [h]
      · exact ih (attempt + 1) c h

/-- Characterization of one lock_file call: the outer handler always returns
normally; the cache is extended exactly on the locked result; every call made
is an attribute fetch on the collapsed path, a login, or a lock RPC on the
collapsed path; and any lock RPC implies the fetched attributes were a dict
whose type is not directory. -/
theorem lock_file_shape (env : LockEnv) (args : Args) (p : String) (cache : Cache) (t cd : Int) :
    ∃ o, lock_fileExc env args p cache t cd = PResult.ret o ∧
      ((o.result = LockResult.locked ∧ o.cache = cacheSet cache (collapseStr p) t) ∨
        (o.result ≠ LockResult.locked ∧ o.cache = cache)) ∧
      (∀ c ∈ o.calls, c = CallEv.getFileAttr (collapseStr p) ∨ c = CallEv.loginCall ∨
        ∃ r l, c = CallEv.modifyFileLock (collapseStr p) r l) ∧
      (∀ q r l, CallEv.modifyFileLock q r l ∈ o.calls →
        ∃ v ty, attrFetched env = some v ∧ v.isDict = true ∧ v.type_ = some ty ∧
          ty ≠ "FS_FILE_TYPE_DIRECTORY") := by
  by_cases habs : isAbs p = true
  case neg =>
    refine ⟨⟨.notAbsolute, cache, [], []⟩, ?_, ?_, ?_, ?_⟩
    · simp [lock_fileExc, lock_fileP, habs]
    · right; simp
    · intro c h; simp at h
    · intro q r l h; simp at h
  case pos =>
    by_cases hhit : cooldownHit cache (collapseStr p) t cd = true
    case pos =>
      refine ⟨⟨.skippedCooldown, cache, [], []⟩, ?_, ?_, ?_, ?_⟩
      · simp [lock_fileExc, lock_fileP, habs, hhit]
      · right; simp
      · intro c h; simp at h
      · intro q r l h; simp at h
    case neg =>
      have hbody : lock_fileP env args p cache t cd =
          lockAfterCooldown env args (collapseStr p) cache t := by
        simp [lock_fileP, habs, hhit]
      have hmain : ∀ (v : AttrVal) (cs : List CallEv),
          attrStage env (collapseStr p) = (PResult.ret v, cs) →
          attrFetched env = some v →
          (∀ c ∈ cs, c = CallEv.getFileAttr (collapseStr p) ∨ c = CallEv.loginCall) →
          ∃ o, lock_fileExc env args p cache t cd = PResult.ret o ∧
            ((o.result = LockResult.locked ∧ o.cache = cacheSet cache (collapseStr p) t) ∨
              (o.result ≠ LockResult.locked ∧ o.cache = cache)) ∧
            (∀ c ∈ o.calls, c = CallEv.getFileAttr (collapseStr p) ∨ c = CallEv.loginCall ∨
              ∃ r l, c = CallEv.modifyFileLock (collapseStr p) r l) ∧
            (∀ q r l, CallEv.modifyFileLock q r l ∈ o.calls →
              ∃ v2 ty, attrFetched env = some v2 ∧ v2.isDict = true ∧ v2.type_ = some ty ∧
                ty ≠ "FS_FILE_TYPE_DIRECTORY") := by
        intro v cs hstage hfetched hcs
        by_cases hdict : v.isDict = true
        case neg =>
          refine ⟨⟨.malformedAttr, cache, cs, []⟩, ?_, ?_, ?_, ?_⟩
          · simp [lock_fileExc, hbody, lockAfterCooldown, hstage, hdict]
          · right; simp
          · intro c h; rcases hcs c h with h1 | h1 <;> simp [h1]
          · intro q r l h
            rcases hcs _ h with h1 | h1 <;> simp at h1
        case pos =>
          cases hty : v.type_ with
          | none =>
            refine ⟨⟨.caughtException .keyError, cache, cs, []⟩, ?_, ?_, ?_, ?_⟩
            · simp [lock_fileExc, hbody, lockAfterCooldown, hstage, hdict, hty]
            · right; simp
            · intro c h; rcases hcs c h with h1 | h1 <;> simp [h1]
            · intro q r l h
              rcases hcs _ h with h1 | h1 <;> simp at h1
          | some ty =>
            by_cases hdir : ty = "FS_FILE_TYPE_DIRECTORY"
            case pos =>
              refine ⟨⟨.skippedDirectory, cache, cs, []⟩, ?_, ?_, ?_, ?_⟩
              · simp [lock_fileExc, hbody, lockAfterCooldown, hstage, hdict, hty, hdir]
              · right; simp
              · intro c h; rcases hcs c h with h1 | h1 <;> simp [h1]
              · intro q r l h
                rcases hcs _ h with h1 | h1 <;> simp at h1
            case neg =>
              have hloopcalls := lockLoopAux_calls env (collapseStr p)
                (retentionOf env args) args.legal_hold 3 0
              cases hsucc : (lockLoop env (collapseStr p) (retentionOf env args) args.legal_hold).1 with
              | true =>
                refine ⟨⟨.locked, cacheSet cache (collapseStr p) t,
                  cs ++ (lockLoop env (collapseStr p) (retentionOf env args) args.legal_hold).2.1,
                  (lockLoop env (collapseStr p) (retentionOf env args) args.legal_hold).2.2⟩,
                  ?_, ?_, ?_, ?_⟩
                · simp [lock_fileExc, hbody, lockAfterCooldown, hstage, hdict, hty, hdir, hsucc]
                · left; simp
                · intro c h
                  simp only [List.mem_append] at h
                  rcases h with h | h
                  · rcases hcs c h with h1 | h1 <;> simp [h1]
                  · right; right
                    have := hloopcalls c h
                    exact ⟨_, _, this⟩
                · intro q r l _
                  exact ⟨v, ty, hfetched, hdict, hty, hdir⟩
              | false =>
                refine ⟨⟨.failedMaxRetries, cache,
                  cs ++ (lockLoop env (collapseStr p) (retentionOf env args) args.legal_hold).2.1,
                  (lockLoop env (collapseStr p) (retentionOf env args) args.legal_hold).2.2⟩,
                  ?_, ?_, ?_, ?_⟩
                · simp [lock_fileExc, hbody, lockAfterCooldown, hstage, hdict, hty, hdir, hsucc]
                · right; simp
                · intro c h
                  simp only [List.mem_append] at h
                  rcases h with h | h
                  · rcases hcs c h with h1 | h1 <;> simp [h1]
                  · right; right
                    have := hloopcalls c h
                    exact ⟨_, _, this⟩
                · intro q r l _
                  exact ⟨v, ty, hfetched, hdict, hty, hdir⟩
      cases hA1 : env.attrFetch1 with
      | ok v =>
        refine hmain v [.getFileAttr (collapseStr p)] ?_ ?_ ?_
        · simp [attrStage, hA1]
        · simp [attrFetched, hA1]
        · intro c h; simp at h; simp [h]
      | error e1 =>
        cases hLC : env.loadConfig with
        | error e2 =>
          refine ⟨⟨.caughtException e2, cache, [.getFileAttr (collapseStr p)], []⟩, ?_, ?_, ?_, ?_⟩
          · simp [lock_fileExc, hbody, lockAfterCooldown, attrStage, hA1, hLC]
          · right; simp
          · intro c h; simp at h; simp [h]
          · intro q r l h; simp at h
        | ok u2 =>
          cases hLG : env.login with
          | error e3 =>
            refine ⟨⟨.caughtException e3, cache,
              [.getFileAttr (collapseStr p), .loginCall], []⟩, ?_, ?_, ?_, ?_⟩
            · simp [lock_fileExc, hbody, lockAfterCooldown, attrStage, hA1, hLC, hLG]
            · right; simp
            · intro c h; simp at h; rcases h with h | h <;> simp [h]
            · intro q r l h; simp at h
          | ok u3 =>
            cases hA2 : env.attrFetch2 with
            | error e4 =>
              refine ⟨⟨.caughtException e4, cache,
                [.getFileAttr (collapseStr p), .loginCall, .getFileAttr (collapseStr p)], []⟩,
                ?_, ?_, ?_, ?_⟩
              · simp [lock_fileExc, hbody, lockAfterCooldown, attrStage, hA1, hLC, hLG, hA2]
              · right; simp
              · intro c h; simp at h; rcases h with h | h | h <;> simp [h]
              · intro q r l h; simp at h
            | ok v =>
              refine hmain v [.getFileAttr (collapseStr p), .loginCall,
                .getFileAttr (collapseStr p)] ?_ ?_ ?_
              · simp [attrStage, hA1, hLC, hLG, hA2]
              · simp [attrFetched, hA1, hLC, hLG, hA2]
              · intro c h; simp at h; rcases h with h | h | h <;> simp [h]

/-- lock_file returns the payload of lock_fileExc. -/
theorem lock_file_eq (env : LockEnv) (args : Args) (p : String) (cache : Cache)
    (t cd : Int) (o : LockOutput) (h : lock_fileExc env args p cache t cd = PResult.ret o) :
    lock_file env args p cache t cd = o := by
  simp [lock_file, h]

/-- A cooldown hit makes lock_file skip with no call and no cache change. -/
theorem lock_file_cooldown_skip (env : LockEnv) (args : Args) (p : String) (cache : Cache)
    (t cd : Int) (habs : isAbs p = true)
    (hhit : cooldownHit cache (collapseStr p) t cd = true) :
    lock_file env args p cache t cd = ⟨.skippedCooldown, cache, [], []⟩ := by
  simp [lock_file, lock_fileExc, lock_fileP, habs, hhit]

/-- When the path is absolute, no cooldown entry applies, the first attribute
fetch yields a dict of non-directory type and the first lock RPC succeeds,
lock_file locks with exactly one attribute fetch and one lock RPC, recording
the entry time in the dedup cache. -/
theorem lock_file_first_try (env : LockEnv) (args : Args) (p : String) (cache : Cache)
    (t cd : Int) (v : AttrVal) (ty : String)
    (habs : isAbs p = true)
    (hnohit : cooldownHit cache (collapseStr p) t cd = false)
    (hattr : env.attrFetch1 = .ok v)
    (hdict : v.isDict = true)
    (hty : v.type_ = some ty)
    (hdir : ty ≠ "FS_FILE_TYPE_DIRECTORY")
    (hrpc : env.lockRPC 0 = .ok ()) :
    lock_file env args p cache t cd =
      ⟨.locked, cacheSet cache (collapseStr p) t,
        [CallEv.getFileAttr (collapseStr p),
         CallEv.modifyFileLock (collapseStr p) (retentionOf env args) args.legal_hold], []⟩ := by
  simp [lock_file, lock_fileExc, lock_fileP, lockAfterCooldown, attrStage, lockLoop, lockLoopAux,
        habs, hnohit, hattr, hdict, hty, hdir, hrpc]

/-- When every lock RPC attempt fails, lock_file makes exactly three attempts,
sleeping two seconds after each, and reports the retry bound reached, leaving
the cache unchanged. -/
theorem lock_file_all_fail (env : LockEnv) (args : Args) (p : String) (cache : Cache)
    (t cd : Int) (v : AttrVal) (ty : String) (e0 e1 e2 : PyExc)
    (habs : isAbs p = true)
    (hnohit : cooldownHit cache (collapseStr p) t cd = false)
    (hattr : env.attrFetch1 = .ok v)
    (hdict : v.isDict = true)
    (hty : v.type_ = some ty)
    (hdir : ty ≠ "FS_FILE_TYPE_DIRECTORY")
    (h0 : env.lockRPC 0 = .error e0)
    (h1 : env.lockRPC 1 = .error e1)
    (h2 : env.lockRPC 2 = .error e2) :
    lock_file env args p cache t cd =
      ⟨.failedMaxRetries, cache,
        [CallEv.getFileAttr (collapseStr p),
         CallEv.modifyFileLock (collapseStr p) (retentionOf env args) args.legal_hold,
         CallEv.modifyFileLock (collapseStr p) (retentionOf env args) args.legal_hold,
         CallEv.modifyFileLock (collapseStr p) (retentionOf env args) args.legal_hold],
        [2, 2, 2]⟩ := by
  simp [lock_file, lock_fileExc, lock_fileP, lockAfterCooldown, attrStage, lockLoop, lockLoopAux,
        habs, hnohit, hattr, hdict, hty, hdir, h0, h1, h2]

/- ---------------------------------------------------------------------------
Claim theorems.
--------------------------------------------------------------------------- -/

/-- C4: the retention parser, run at now = 2024-01-01T00:00:00Z, maps "7d" to
2024-01-08T00:00:00Z, "2m" to 2024-03-01T00:00:00Z (sixty days), "1y" to
2024-12-31T00:00:00Z (365 days), "2023-12-31" to that date at midnight, and a
string matching none of the grammar shapes ("bogus") or one with a
non-integer magnitude ("x7d") to a parse failure; microseconds are truncated
away and the output carries the explicit UTC marker. -/
theorem c4_retention_examples :
    parse_retention ⟨civilToDays 2024 1 1, 0, 0⟩ (some "7d") = some "2024-01-08T00:00:00Z" ∧
    parse_retention ⟨civilToDays 2024 1 1, 0, 0⟩ (some "2m") = some "2024-03-01T00:00:00Z" ∧
    parse_retention ⟨civilToDays 2024 1 1, 0, 0⟩ (some "1y") = some "2024-12-31T00:00:00Z" ∧
    parse_retention ⟨civilToDays 2024 1 1, 0, 0⟩ (some "2023-12-31") = some "2023-12-31T00:00:00Z" ∧
    parse_retention ⟨civilToDays 2024 1 1, 0, 0⟩ (some "bogus") = none ∧
    parse_retention ⟨civilToDays 2024 1 1, 0, 0⟩ (some "x7d") = none ∧
    parse_retention ⟨civilToDays 2024 1 1, 0, 123456⟩ (some "7d") = some "2024-01-08T00:00:00Z" := by
  decide

/-- C1: with the default five-second cooldown window, issuing lock_file twice
on the same path within the window yields exactly one underlying lock RPC:
the first call (one successful RPC attempt) records the path in the dedup
cache, and the second call, finding that entry less than five seconds old,
returns the cooldown skip without issuing any call. -/
theorem c1_cooldown_idempotence (env1 env2 : LockEnv) (args : Args) (p : String)
    (cache : Cache) (t1 t2 : Int) (v : AttrVal) (ty : String)
    (habs : isAbs p = true)
    (hnohit : cooldownHit cache (collapseStr p) t1 5 = false)
    (hattr : env1.attrFetch1 = .ok v)
    (hdict : v.isDict = true)
    (hty : v.type_ = some ty)
    (hdir : ty ≠ "FS_FILE_TYPE_DIRECTORY")
    (hrpc : env1.lockRPC 0 = .ok ())
    (hwin : t2 - t1 < 5) :
    (lock_file env1 args p cache t1 5).result = LockResult.locked ∧
    countModify (lock_file env1 args p cache t1 5).calls = 1 ∧
    (lock_file env2 args p (lock_file env1 args p cache t1 5).cache t2 5).result =
      LockResult.skippedCooldown ∧
    (lock_file env2 args p (lock_file env1 args p cache t1 5).cache t2 5).calls = [] ∧
    countModify ((lock_file env1 args p cache t1 5).calls ++
      (lock_file env2 args p (lock_file env1 args p cache t1 5).cache t2 5).calls) = 1 := by
  have hfst := lock_file_first_try env1 args p cache t1 5 v ty habs hnohit hattr hdict hty hdir hrpc
  have hhit2 : cooldownHit (cacheSet cache (collapseStr p) t1) (collapseStr p) t2 5 = true := by
    simp [cooldownHit, cacheGet_cacheSet, hwin]
  have hsnd := lock_file_cooldown_skip env2 args p (cacheSet cache (collapseStr p) t1) t2 5 habs hhit2
  refine ⟨?_, ?_, ?_, ?_, ?_⟩ <;>
    simp [hfst, hsnd, countModify, List.countP_cons, List.countP_nil]

/-- C2: if the lock RPC fails on every attempt, lock_file makes exactly three
attempts, never more, with a fixed two-second sleep after each failure and no
backoff growth, and returns the retry-bound failure; a success on attempt k
(k below three, all earlier attempts failing) stops the loop after exactly
k plus one RPCs with the locked result. -/
theorem c2_retry_bound :
    (∀ (env : LockEnv) (args : Args) (p : String) (cache : Cache) (t cd : Int)
        (v : AttrVal) (ty : String),
      isAbs p = true → cooldownHit cache (collapseStr p) t cd = false →
      env.attrFetch1 = .ok v → v.isDict = true → v.type_ = some ty →
      ty ≠ "FS_FILE_TYPE_DIRECTORY" →
      (∀ i, ∃ e, env.lockRPC i = .error e) →
      (lock_file env args p cache t cd).result = LockResult.failedMaxRetries ∧
      countModify (lock_file env args p cache t cd).calls = 3 ∧
      (lock_file env args p cache t cd).sleeps = [2, 2, 2]) ∧
    (∀ (env : LockEnv) (args : Args) (p : String) (cache : Cache) (t cd : Int)
        (v : AttrVal) (ty : String) (k : Nat),
      isAbs p = true → cooldownHit cache (collapseStr p) t cd = false →
      env.attrFetch1 = .ok v → v.isDict = true → v.type_ = some ty →
      ty ≠ "FS_FILE_TYPE_DIRECTORY" →
      k < 3 → (∀ j, j < k → ∃ e, env.lockRPC j = .error e) → env.lockRPC k = .ok () →
      (lock_file env args p cache t cd).result = LockResult.locked ∧
      countModify (lock_file env args p cache t cd).calls = k + 1) := by
  constructor
  · intro env args p cache t cd v ty habs hnohit hattr hdict hty hdir hfail
    obtain ⟨e0, h0⟩ := hfail 0
    obtain ⟨e1, h1⟩ := hfail 1
    obtain ⟨e2, h2⟩ := hfail 2
    rw [lock_file_all_fail env args p cache t cd v ty e0 e1 e2
      habs hnohit hattr hdict hty hdir h0 h1 h2]
    refine ⟨rfl, ?_, rfl⟩
    simp [countModify, List.countP_cons, List.countP_nil]
  · intro env args p cache t cd v ty k habs hnohit hattr hdict hty hdir hk hearlier hok
    interval_cases k
    · rw [lock_file_first_try env args p cache t cd v ty habs hnohit hattr hdict hty hdir hok]
      refine ⟨rfl, ?_⟩
      simp [countModify, List.countP_cons, List.countP_nil]
    · obtain ⟨e0, h0⟩ := hearlier 0 (by omega)
      have : lock_file env args p cache t cd =
          ⟨.locked, cacheSet cache (collapseStr p) t,
            [CallEv.getFileAttr (collapseStr p),
             CallEv.modifyFileLock (collapseStr p) (retentionOf env args) args.legal_hold,
             CallEv.modifyFileLock (collapseStr p) (retentionOf env args) args.legal_hold], [2]⟩ := by
        simp [lock_file, lock_fileExc, lock_fileP, lockAfterCooldown, attrStage, lockLoop,
              lockLoopAux, habs, hnohit, hattr, hdict, hty, hdir, h0, hok]
      rw [this]
      refine ⟨rfl, ?_⟩
      simp [countModify, List.countP_cons, List.countP_nil]
    · obtain ⟨e0, h0⟩ := hearlier 0 (by omega)
      obtain ⟨e1, h1⟩ := hearlier 1 (by omega)
      have : lock_file env args p cache t cd =
          ⟨.locked, cacheSet cache (collapseStr p) t,
            [CallEv.getFileAttr (collapseStr p),
             CallEv.modifyFileLock (collapseStr p) (retentionOf env args) args.legal_hold,
             CallEv.modifyFileLock (collapseStr p) (retentionOf env args) args.legal_hold,
             CallEv.modifyFileLock (collapseStr p) (retentionOf env args) args.legal_hold],
            [2, 2]⟩ := by
        simp [lock_file, lock_fileExc, lock_fileP, lockAfterCooldown, attrStage, lockLoop,
              lockLoopAux, habs, hnohit, hattr, hdict, hty, hdir, h0, h1, hok]
      rw [this]
      refine ⟨rfl, ?_⟩
      simp [countModify, List.countP_cons, List.countP_nil]

/-- C3: when the fetched attributes report the directory type, lock_file
skips the target with no lock RPC; conversely, every lock RPC issued by
lock_file is for a target whose fetched attributes are a dict whose type is
not directory. -/
theorem c3_directory_excluded :
    (∀ (env : LockEnv) (args : Args) (p : String) (cache : Cache) (t cd : Int) (v : AttrVal),
      isAbs p = true → cooldownHit cache (collapseStr p) t cd = false →
      env.attrFetch1 = .ok v → v.isDict = true →
      v.type_ = some "FS_FILE_TYPE_DIRECTORY" →
      lock_file env args p cache t cd =
        ⟨.skippedDirectory, cache, [CallEv.getFileAttr (collapseStr p)], []⟩) ∧
    (∀ (env : LockEnv) (args : Args) (p : String) (cache : Cache) (t cd : Int)
        (q : String) (r : Option String) (l : Bool),
      CallEv.modifyFileLock q r l ∈ (lock_file env args p cache t cd).calls →
      ∃ v ty, attrFetched env = some v ∧ v.isDict = true ∧ v.type_ = some ty ∧
        ty ≠ "FS_FILE_TYPE_DIRECTORY") := by
  constructor
  · intro env args p cache t cd v habs hnohit hattr hdict hty
    simp [lock_file, lock_fileExc, lock_fileP, lockAfterCooldown, attrStage,
          habs, hnohit, hattr, hdict, hty]
  · intro env args p cache t cd q r l hmem
    obtain ⟨o, ho, _, _, h4⟩ := lock_file_shape env args p cache t cd
    rw [lock_file_eq env args p cache t cd o ho] at hmem
    exact h4 q r l hmem

/-- C8: the dedup cache is written only on the locked result, as the entry
time of the successful call under the collapsed path; every other outcome
leaves the cache exactly as it was; and no existing entry is ever removed. -/
theorem c8_dedup_cache_monotone :
    ∀ (env : LockEnv) (args : Args) (p : String) (cache : Cache) (t cd : Int),
      ((lock_file env args p cache t cd).result = LockResult.locked →
        (lock_file env args p cache t cd).cache = cacheSet cache (collapseStr p) t) ∧
      ((lock_file env args p cache t cd).result ≠ LockResult.locked →
        (lock_file env args p cache t cd).cache = cache) ∧
      (∀ k w, cacheGet cache k = some w →
        ∃ w2, cacheGet (lock_file env args p cache t cd).cache k = some w2) := by
  intro env args p cache t cd
  obtain ⟨o, ho, h2, _, _⟩ := lock_file_shape env args p cache t cd
  rw [lock_file_eq env args p cache t cd o ho]
  rcases h2 with ⟨hres, hcache⟩ | ⟨hres, hcache⟩
  · refine ⟨fun _ => hcache, fun hne => absurd hres hne, ?_⟩
    intro k w hk
    rw [hcache, cacheGet_cacheSet]
    by_cases hkp : k = collapseStr p
    · exact ⟨t, by simp [hkp]⟩
    · exact ⟨w, by simp [hkp, hk]⟩
  · refine ⟨fun hl => absurd hl hres, fun _ => hcache, ?_⟩
    intro k w hk
    exact ⟨w, by rw [hcache]; exact hk⟩

/-- C10: lock_file is total at its interface: for every environment —
including attribute-fetch failures, failed session re-establishment,
lock-RPC failures, unparseable retention strings and malformed attribute
payloads — the outer handler absorbs every exception of the body and the
call returns normally. -/
theorem c10_lock_file_total :
    ∀ (env : LockEnv) (args : Args) (p : String) (cache : Cache) (t cd : Int),
      ∃ o, lock_fileExc env args p cache t cd = PResult.ret o := by
  intro env args p cache t cd
  obtain ⟨o, ho, _⟩ := lock_file_shape env args p cache t cd
  exact ⟨o, ho⟩

/-- Every collaborator call recorded by the resolver is an attribute query by
identifier or by path. -/
theorem get_fileinfo_calls (env : ResolveEnv) (fn dp : Option String) :
    ∀ c ∈ (get_fileinfo env fn dp).2,
      (∃ i, c = CallEv.getFileAttrById i) ∨ (∃ pp, c = CallEv.getFileAttrByPath pp) := by
  intro c h
  by_cases h1 : truthyOpt fn = true
  · cases hr : env.attrById (fn.getD "") with
    | error e =>
      simp [get_fileinfo, h1, hr] at h
      exact Or.inl ⟨_, h⟩
    | ok r =>
      cases hp : r.path? with
      | none =>
        simp [get_fileinfo, h1, hr, hp] at h
        exact Or.inl ⟨_, h⟩
      | some p =>
        simp [get_fileinfo, h1, hr, hp] at h
        exact Or.inl ⟨_, h⟩
  · by_cases h2 : truthyOpt dp = true
    · cases hr : env.attrByPath (dp.getD "") with
      | error e =>
        simp [get_fileinfo, h1, h2, hr] at h
        exact Or.inr ⟨_, h⟩
      | ok r =>
        cases hi : r.id? with
        | none =>
          simp [get_fileinfo, h1, h2, hr, hi] at h
          exact Or.inr ⟨_, h⟩
        | some i =>
          cases hp : r.path? with
          | none =>
            simp [get_fileinfo, h1, h2, hr, hi, hp] at h
            exact Or.inr ⟨_, h⟩
          | some p =>
            simp [get_fileinfo, h1, h2, hr, hi, hp] at h
            exact Or.inr ⟨_, h⟩
    · simp [get_fileinfo, h1, h2] at h

/-- The possible shapes of a call recorded while processing one batch of
events: the internal lock_file invocation on the single-pass-normalized
joined path of some matching event, or a call made inside lock_file, whose
attribute and lock-RPC paths are fully collapsed. -/
theorem processItems_calls (env : StreamEnv) (args : Args) (times : Nat → Int) (fp : String) :
    ∀ (items : List CEDict) (k : Nat) (cache : Cache) (c : CallEv),
      c ∈ (processItems env args times fp items k cache).2.2 →
      (∃ d, d ∈ items ∧ d.type? = some "child_file_added" ∧
        c = CallEv.lockFileCall (pyReplaceStr (fp ++ "/" ++ strOfOpt d.path?))) ∨
      (∃ q, c = CallEv.getFileAttr q ∧ hasDSStr q = false) ∨
      c = CallEv.loginCall ∨
      (∃ q r l, c = CallEv.modifyFileLock q r l ∧ hasDSStr q = false) := by
  intro items
  induction items with
  | nil => intro k cache c h; simp [processItems] at h
  | cons d rest ih =>
    intro k cache c h
    by_cases hty : d.type? = some "child_file_added"
    · simp only [processItems, hty, if_pos] at h
      simp only [List.cons_append, List.mem_cons, List.mem_append] at h
      rcases h with h | h
      · exact Or.inl ⟨d, by simp, hty, h⟩
      rcases h with h | h
      · obtain ⟨o, ho, _, h3, _⟩ := lock_file_shape (env.lockEnvs k) args
          (pyReplaceStr (fp ++ "/" ++ strOfOpt d.path?)) cache (times k) 5
        rw [lock_file_eq _ _ _ _ _ _ _ ho] at h
        rcases h3 c h with h1 | h1 | ⟨r, l, h1⟩
        · exact Or.inr (Or.inl ⟨_, h1, hasDSStr_collapseStr _⟩)
        · exact Or.inr (Or.inr (Or.inl h1))
        · exact Or.inr (Or.inr (Or.inr ⟨_, r, l, h1, hasDSStr_collapseStr _⟩))
      · rcases ih (k + 1) _ c h with ⟨d2, hd2, hty2, hc⟩ | h1 | h1 | h1
        · exact Or.inl ⟨d2, by simp [hd2], hty2, hc⟩
        · exact Or.inr (Or.inl h1)
        · exact Or.inr (Or.inr (Or.inl h1))
        · exact Or.inr (Or.inr (Or.inr h1))
    · simp only [processItems, hty, if_neg, not_false_iff] at h
      rcases ih k cache c h with ⟨d2, hd2, hty2, hc⟩ | h1 | h1 | h1
      · exact Or.inl ⟨d2, by simp [hd2], hty2, hc⟩
      · exact Or.inr (Or.inl h1)
      · exact Or.inr (Or.inr (Or.inl h1))
      · exact Or.inr (Or.inr (Or.inr h1))

/-- The possible shapes of a call recorded while processing the stream
items. -/
theorem processChanges_calls (env : StreamEnv) (args : Args) (times : Nat → Int) (fp : String) :
    ∀ (chs : List Change) (k : Nat) (cache : Cache) (c : CallEv),
      c ∈ (processChanges env args times fp chs k cache).2 →
      (∃ rel, c = CallEv.lockFileCall (pyReplaceStr (fp ++ "/" ++ rel))) ∨
      (∃ q, c = CallEv.getFileAttr q ∧ hasDSStr q = false) ∨
      c = CallEv.loginCall ∨
      (∃ q r l, c = CallEv.modifyFileLock q r l ∧ hasDSStr q = false) := by
  intro chs
  induction chs with
  | nil => intro k cache c h; simp [processChanges] at h
  | cons ch rest ih =>
    intro k cache c h
    cases ch with
    | nonList => exact ih k cache c (by simpa [processChanges] using h)
    | batch items =>
      simp only [processChanges, List.mem_append] at h
      rcases h with h | h
      · rcases processItems_calls env args times fp items k cache c h with
          ⟨d, _, _, hc⟩ | h1 | h1 | h1
        · exact Or.inl ⟨strOfOpt d.path?, hc⟩
        · exact Or.inr (Or.inl h1)
        · exact Or.inr (Or.inr (Or.inl h1))
        · exact Or.inr (Or.inr (Or.inr h1))
      · exact ih _ _ c h

/-- The possible shapes of a call recorded during one consumer cycle: the
resolver's attribute queries, the stream opening, the internal lock_file
invocation on the single-pass-normalized joined path, or a call made inside
lock_file, whose attribute and lock-RPC paths are fully collapsed. -/
theorem stream_calls_shape (env : StreamEnv) (args : Args) (times : Nat → Int) (cache : Cache) :
    ∀ c ∈ (stream_notifications env args times cache).calls,
      (∃ i, c = CallEv.getFileAttrById i) ∨ (∃ pp, c = CallEv.getFileAttrByPath pp) ∨
      (∃ pa ia, c = CallEv.openChangeStream pa ia) ∨
      (∃ rel, c = CallEv.lockFileCall (pyReplaceStr
        ((get_fileinfo env.res args.file_num args.directory_path).1.2 ++ "/" ++ rel))) ∨
      (∃ q, c = CallEv.getFileAttr q ∧ hasDSStr q = false) ∨
      c = CallEv.loginCall ∨
      (∃ q r l, c = CallEv.modifyFileLock q r l ∧ hasDSStr q = false) := by
  intro c h
  have hphase : ∀ (fp : String) (pa ia : Option String) (rcs : List CallEv),
      (∀ c2 ∈ rcs, (∃ i, c2 = CallEv.getFileAttrById i) ∨
        (∃ pp, c2 = CallEv.getFileAttrByPath pp)) →
      c ∈ (streamPhase env args times cache fp pa ia rcs).calls →
      (∃ i, c = CallEv.getFileAttrById i) ∨ (∃ pp, c = CallEv.getFileAttrByPath pp) ∨
      (∃ pa2 ia2, c = CallEv.openChangeStream pa2 ia2) ∨
      (∃ rel, c = CallEv.lockFileCall (pyReplaceStr (fp ++ "/" ++ rel))) ∨
      (∃ q, c = CallEv.getFileAttr q ∧ hasDSStr q = false) ∨
      c = CallEv.loginCall ∨
      (∃ q r l, c = CallEv.modifyFileLock q r l ∧ hasDSStr q = false) := by
    intro fp pa ia rcs hrcs hmem
    cases hop : env.openStream with
    | error e =>
      simp only [streamPhase, hop, List.mem_append] at hmem
      rcases hmem with hmem | hmem
      · rcases hrcs c hmem with h1 | h1
        · exact Or.inl h1
        · exact Or.inr (Or.inl h1)
      · simp at hmem
        exact Or.inr (Or.inr (Or.inl ⟨pa, ia, hmem⟩))
    | ok st =>
      have hmem2 : c ∈ rcs ++ [CallEv.openChangeStream pa ia] ++
          (processChanges env args times fp st.1 0 cache).2 := by
        cases ht : st.2 with
        | some e => simpa [streamPhase, hop, ht] using hmem
        | none => simpa [streamPhase, hop, ht] using hmem
      simp only [List.mem_append, List.mem_singleton] at hmem2
      rcases hmem2 with (hmem2 | hmem2) | hmem2
      · rcases hrcs c hmem2 with h1 | h1
        · exact Or.inl h1
        · exact Or.inr (Or.inl h1)
      · exact Or.inr (Or.inr (Or.inl ⟨pa, ia, hmem2⟩))
      · rcases processChanges_calls env args times fp st.1 0 cache c hmem2 with
          h1 | h1 | h1 | h1
        · exact Or.inr (Or.inr (Or.inr (Or.inl h1)))
        · exact Or.inr (Or.inr (Or.inr (Or.inr (Or.inl h1))))
        · exact Or.inr (Or.inr (Or.inr (Or.inr (Or.inr (Or.inl h1)))))
        · exact Or.inr (Or.inr (Or.inr (Or.inr (Or.inr (Or.inr h1)))))
  by_cases h1 : truthyOpt args.file_num = true
  · have h2 : c ∈ (streamPhase env args times cache
        (get_fileinfo env.res args.file_num args.directory_path).1.2 none
        (some (get_fileinfo env.res args.file_num args.directory_path).1.1)
        (get_fileinfo env.res args.file_num args.directory_path).2).calls := by
      simpa [stream_notifications, h1] using h
    exact hphase _ _ _ _ (get_fileinfo_calls env.res args.file_num args.directory_path) h2
  · by_cases h2 : truthyOpt args.directory_path = true
    · have h3 : c ∈ (streamPhase env args times cache
          (get_fileinfo env.res args.file_num args.directory_path).1.2
          (some (get_fileinfo env.res args.file_num args.directory_path).1.2) none
          (get_fileinfo env.res args.file_num args.directory_path).2).calls := by
        simpa [stream_notifications, h1, h2] using h
      exact hphase _ _ _ _ (get_fileinfo_calls env.res args.file_num args.directory_path) h3
    · simp [stream_notifications, h1, h2] at h

/-- When the resolver is given a truthy identifier, it makes exactly one
attribute query, by that identifier. -/
theorem get_fileinfo_calls_byId (env : ResolveEnv) (s : String) (dp : Option String)
    (hs : s ≠ "") : (get_fileinfo env (some s) dp).2 = [CallEv.getFileAttrById s] := by
  have htr : truthyOpt (some s) = true := by simp [truthyOpt, hs]
  cases hr : env.attrById s with
  | error e => simp [get_fileinfo, htr, hr]
  | ok r =>
    cases hp : r.path? with
    | none => simp [get_fileinfo, htr, hr, hp]
    | some p => simp [get_fileinfo, htr, hr, hp]

/- ---------------------------------------------------------------------------
Concrete environments for witnesses and counterexamples.
--------------------------------------------------------------------------- -/

/-- A regular-file attribute payload. -/
def attrFile : AttrVal := ⟨true, some "FS_FILE_TYPE_FILE"⟩

/-- A lock environment in which every collaborator call succeeds. -/
def envOk : LockEnv :=
⟨.ok attrFile, .ok (), .ok (), .ok attrFile, fun _ => .ok (), ⟨19723, 0, 0⟩⟩

/-- A lock environment in which every lock RPC attempt fails. -/
def envRPCFail : LockEnv :=
⟨.ok attrFile, .ok (), .ok (), .ok attrFile, fun _ => .error .requestException, ⟨19723, 0, 0⟩⟩

/-- A lock environment whose attribute fetch reports a directory. -/
def envDir : LockEnv :=
⟨.ok ⟨true, some "FS_FILE_TYPE_DIRECTORY"⟩, .ok (), .ok (), .ok attrFile,
  fun _ => .ok (), ⟨19723, 0, 0⟩⟩

/-- Arguments watching a directory path with a seven-day retention. -/
def args0 : Args := ⟨none, some "/vault/docs", false, some "7d", false, none⟩

/-- Arguments watching by file number with a legal hold. -/
def argsFN : Args := ⟨some "42", none, false, none, true, none⟩

/-- Arguments with no target at all. -/
def argsNone : Args := ⟨none, none, false, none, false, none⟩

/-- A resolver whose attribute query succeeds with a slash-run path. -/
def resOkVault : ResolveEnv :=
⟨fun _ => .ok ⟨some "7", some "/vault//docs//"⟩,
  fun _ => .ok ⟨some "7", some "/vault//docs//"⟩⟩

/-- A resolver whose attribute query always raises a transport fault. -/
def resFail : ResolveEnv :=
⟨fun _ => .error .requestException, fun _ => .error .requestException⟩

/-- A consumer environment delivering one file-added event under the
slash-run root. -/
def sEnvC5 : StreamEnv :=
⟨resOkVault, .ok ([.batch [⟨some "child_file_added", some "new.txt"⟩]], none), fun _ => envOk⟩

/-- A consumer environment in which resolution and stream opening fault. -/
def sEnvC7 : StreamEnv := ⟨resFail, .error .requestException, fun _ => envOk⟩

/-- A consumer environment whose stream raises a transport fault after
yielding nothing. -/
def sEnvC9 : StreamEnv := ⟨resOkVault, .ok ([], some .requestException), fun _ => envOk⟩

/- ---------------------------------------------------------------------------
Remaining claim theorems.
--------------------------------------------------------------------------- -/

/-- C6: the target resolver returns the sentinel pair instead of propagating
in each failure case — neither input supplied, collaborator raising on the
lookup (object missing or transport fault) by identifier or by path, and a
payload without the looked-up key — and returns the looked-up identifier and
absolute path on success. -/
theorem c6_resolver_sentinel :
    (∀ (env : ResolveEnv) (fn dp : Option String),
      truthyOpt fn = false → truthyOpt dp = false →
      (get_fileinfo env fn dp).1 = ("Error_ID", "Error_Path")) ∧
    (∀ (env : ResolveEnv) (s : String) (dp : Option String) (e : PyExc),
      truthyOpt (some s) = true → env.attrById s = .error e →
      (get_fileinfo env (some s) dp).1 = ("Error_ID", "Error_Path")) ∧
    (∀ (env : ResolveEnv) (dp : String) (e : PyExc),
      truthyOpt (some dp) = true → env.attrByPath dp = .error e →
      (get_fileinfo env none (some dp)).1 = ("Error_ID", "Error_Path")) ∧
    (∀ (env : ResolveEnv) (s : String) (dp : Option String) (r : RAttr) (p : String),
      truthyOpt (some s) = true → env.attrById s = .ok r → r.path? = some p →
      (get_fileinfo env (some s) dp).1 = (s, p)) ∧
    (∀ (env : ResolveEnv) (dp : String) (r : RAttr) (i p : String),
      truthyOpt (some dp) = true → env.attrByPath dp = .ok r →
      r.id? = some i → r.path? = some p →
      (get_fileinfo env none (some dp)).1 = (i, p)) := by
  refine ⟨?_, ?_, ?_, ?_, ?_⟩
  · intro env fn dp h1 h2
    simp [get_fileinfo, h1, h2]
  · intro env s dp e h1 h2
    simp [get_fileinfo, h1, h2]
  · intro env dp e h1 h2
    have hd : ¬ dp = "" := by simpa [truthyOpt] using h1
    simp [get_fileinfo, truthyOpt, hd, h2]
  · intro env s dp r p h1 h2 h3
    simp [get_fileinfo, h1, h2, h3]
  · intro env dp r i p h1 h2 h3 h4
    have hd : ¬ dp = "" := by simpa [truthyOpt] using h1
    simp [get_fileinfo, truthyOpt, hd, h2, h3, h4]

theorem c6_witness :
    (get_fileinfo resFail none none).1 = ("Error_ID", "Error_Path") ∧
    (get_fileinfo resFail (some "42") none).1 = ("Error_ID", "Error_Path") ∧
    (get_fileinfo resFail none (some "/vault")).1 = ("Error_ID", "Error_Path") ∧
    (get_fileinfo resOkVault (some "42") none).1 = ("42", "/vault//docs//") ∧
    (get_fileinfo resOkVault none (some "/vault")).1 = ("7", "/vault//docs//") :=
  ⟨c6_resolver_sentinel.1 resFail none none rfl rfl,
    c6_resolver_sentinel.2.1 resFail "42" none .requestException (by decide) rfl,
    c6_resolver_sentinel.2.2.1 resFail "/vault" .requestException (by decide) rfl,
    c6_resolver_sentinel.2.2.2.1 resOkVault "42" none ⟨some "7", some "/vault//docs//"⟩
      "/vault//docs//" (by decide) rfl rfl,
    c6_resolver_sentinel.2.2.2.2 resOkVault "/vault" ⟨some "7", some "/vault//docs//"⟩
      "7" "/vault//docs//" (by decide) rfl rfl rfl⟩

/-- C5 counterexample: the spec's example constructed path still contains a
double separator after the consumer's normalization — the consumer-forwarded
path for the matching event is that partially collapsed string, and the fully
collapsed path is not what is forwarded — refuting the claim that every run
of repeated separators is collapsed to a single separator before the pair is
forwarded to the lock orchestrator. -/
theorem c5_normalization_cex :
    pyReplaceStr "/vault//docs///new.txt" = "/vault/docs//new.txt" ∧
    hasDSStr "/vault/docs//new.txt" = true ∧
    CallEv.lockFileCall "/vault/docs//new.txt" ∈
      (stream_notifications sEnvC5 args0 (fun _ => 0) []).calls ∧
    CallEv.lockFileCall "/vault/docs/new.txt" ∉
      (stream_notifications sEnvC5 args0 (fun _ => 0) []).calls := by
  decide

/-- C5 amended: the consumer forwards the single-left-to-right-pass
double-slash replacement of the joined path (which can leave one residual
double separator for each run of three or more), and full collapse to single
separators is guaranteed before any collaborator call made with the
constructed path, because the lock orchestrator re-collapses every slash run
before its attribute fetches and lock RPCs. -/
theorem c5_normalization_amended :
    (∀ (env : StreamEnv) (args : Args) (times : Nat → Int) (cache : Cache) (q : String),
      CallEv.lockFileCall q ∈ (stream_notifications env args times cache).calls →
      ∃ rel, q = pyReplaceStr
        ((get_fileinfo env.res args.file_num args.directory_path).1.2 ++ "/" ++ rel)) ∧
    (∀ (env : StreamEnv) (args : Args) (times : Nat → Int) (cache : Cache) (q : String),
      CallEv.getFileAttr q ∈ (stream_notifications env args times cache).calls →
      hasDSStr q = false) ∧
    (∀ (env : StreamEnv) (args : Args) (times : Nat → Int) (cache : Cache)
        (q : String) (r : Option String) (l : Bool),
      CallEv.modifyFileLock q r l ∈ (stream_notifications env args times cache).calls →
      hasDSStr q = false) := by
  refine ⟨?_, ?_, ?_⟩
  · intro env args times cache q h
    rcases stream_calls_shape env args times cache _ h with
      ⟨i, hi⟩ | ⟨pp, hi⟩ | ⟨pa, ia, hi⟩ | ⟨rel, hi⟩ | ⟨q2, hi, _⟩ | hi | ⟨q2, r, l, hi, _⟩
    · simp at hi
    · simp at hi
    · simp at hi
    · injection hi with h2
      exact ⟨rel, h2⟩
    · simp at hi
    · simp at hi
    · simp at hi
  · intro env args times cache q h
    rcases stream_calls_shape env args times cache _ h with
      ⟨i, hi⟩ | ⟨pp, hi⟩ | ⟨pa, ia, hi⟩ | ⟨rel, hi⟩ | ⟨q2, hi, hds⟩ | hi | ⟨q2, r, l, hi, _⟩
    · simp at hi
    · simp at hi
    · simp at hi
    · simp at hi
    · injection hi with h2
      rw [h2]
      exact hds
    · simp at hi
    · simp at hi
  · intro env args times cache q r l h
    rcases stream_calls_shape env args times cache _ h with
      ⟨i, hi⟩ | ⟨pp, hi⟩ | ⟨pa, ia, hi⟩ | ⟨rel, hi⟩ | ⟨q2, hi, _⟩ | hi | ⟨q2, r2, l2, hi, hds⟩
    · simp at hi
    · simp at hi
    · simp at hi
    · simp at hi
    · simp at hi
    · simp at hi
    · injection hi with h2 h3 h4
      rw [h2]
      exact hds

theorem c5_normalization_witness :
    (∃ rel, "/vault/docs//new.txt" = pyReplaceStr
      ((get_fileinfo sEnvC5.res args0.file_num args0.directory_path).1.2 ++ "/" ++ rel)) ∧
    hasDSStr "/vault/docs/new.txt" = false :=
  ⟨c5_normalization_amended.1 sEnvC5 args0 (fun _ => 0) [] "/vault/docs//new.txt" (by decide),
    c5_normalization_amended.2.1 sEnvC5 args0 (fun _ => 0) [] "/vault/docs/new.txt" (by decide)⟩

/-- C7 counterexample: with the resolver faulting, the resolver returns the
sentinel pair and the consumer nevertheless opens the change stream using the
sentinel identifier — no caller checks for the sentinel before proceeding. -/
theorem c7_sentinel_cex :
    (get_fileinfo sEnvC7.res argsFN.file_num argsFN.directory_path).1 =
      ("Error_ID", "Error_Path") ∧
    CallEv.openChangeStream none (some "Error_ID") ∈
      (stream_notifications sEnvC7 argsFN (fun _ => 0) []).calls := by
  decide

/-- C7 amended: when the target resolver returns the sentinel pair, the
calling consumer does not check for it and proceeds to open the change stream
with the sentinel values; the cycle still stops safely because the resulting
collaborator fault is caught by the consumer's own exception handler — no
lock RPC is issued, the cache is untouched, and the consumer returns normally
— leaving the retry to the supervisor. -/
theorem c7_sentinel_amended :
    ∀ (env : StreamEnv) (args : Args) (times : Nat → Int) (cache : Cache) (s : String)
      (e e2 : PyExc),
      args.file_num = some s → s ≠ "" →
      env.res.attrById s = .error e →
      env.openStream = .error e2 →
      (stream_notifications env args times cache).calls =
        [CallEv.getFileAttrById s, CallEv.openChangeStream none (some "Error_ID")] ∧
      (stream_notifications env args times cache).result = ConsResult.caughtError e2 ∧
      countModify (stream_notifications env args times cache).calls = 0 ∧
      (stream_notifications env args times cache).cache = cache := by
  intro env args times cache s e e2 hfn hs hres hop
  have htr : truthyOpt args.file_num = true := by simp [hfn, truthyOpt, hs]
  have htr2 : truthyOpt (some s) = true := by simp [truthyOpt, hs]
  have hgf : get_fileinfo env.res args.file_num args.directory_path =
      (("Error_ID", "Error_Path"), [CallEv.getFileAttrById s]) := by
    simp [get_fileinfo, hfn, htr2, hres]
  refine ⟨?_, ?_, ?_, ?_⟩ <;>
    simp [stream_notifications, streamPhase, htr, hgf, hop, countModify]

theorem c7_sentinel_witness :
    (stream_notifications sEnvC7 argsFN (fun _ => 0) []).calls =
      [CallEv.getFileAttrById "42", CallEv.openChangeStream none (some "Error_ID")] ∧
    (stream_notifications sEnvC7 argsFN (fun _ => 0) []).result =
      ConsResult.caughtError .requestException ∧
    countModify (stream_notifications sEnvC7 argsFN (fun _ => 0) []).calls = 0 ∧
    (stream_notifications sEnvC7 argsFN (fun _ => 0) []).cache = [] :=
  c7_sentinel_amended sEnvC7 argsFN (fun _ => 0) [] "42" .requestException .requestException
    rfl (by decide) rfl rfl

/-- C9 counterexample: a transport fault raised inside the consumer while
iterating the stream is caught by the consumer's own handler, and the
supervisor iteration then sleeps the polling interval — fifteen seconds here
— and not the claimed fixed five seconds; the process does not exit. -/
theorem c9_supervisor_cex :
    (stream_notifications sEnvC9 args0 (fun _ => 0) []).result =
      ConsResult.caughtError .requestException ∧
    (daemon_iteration sEnvC9 args0 15 (fun _ => 0) []).1 =
      DaemonStep.sleepThenContinue 15 ∧
    DaemonStep.sleepThenContinue 15 ≠ DaemonStep.sleepThenContinue 5 := by
  decide

/-- C9 amended: an exception raised inside the notification consumer never
causes the process to exit — the consumer catches it itself, and the
supervisor iteration continues after sleeping the polling interval (not the
fixed five seconds, which applies only when the loop body itself raises, as
when no target argument is supplied); every iteration with a truthy target
begins again with target resolution. -/
theorem c9_supervisor_amended :
    (∀ (env : StreamEnv) (args : Args) (interval : Nat) (times : Nat → Int)
        (cache : Cache) (code : Nat),
      (daemon_iteration env args interval times cache).1 ≠ DaemonStep.exited code) ∧
    (∀ (env : StreamEnv) (args : Args) (interval : Nat) (times : Nat → Int) (cache : Cache),
      (truthyOpt args.file_num || truthyOpt args.directory_path) = true →
      (daemon_iteration env args interval times cache).1 =
        DaemonStep.sleepThenContinue interval) ∧
    (∀ (env : StreamEnv) (args : Args) (interval : Nat) (times : Nat → Int) (cache : Cache),
      (truthyOpt args.file_num || truthyOpt args.directory_path) = false →
      (daemon_iteration env args interval times cache).1 = DaemonStep.sleepThenContinue 5) ∧
    (∀ (env : StreamEnv) (args : Args) (interval : Nat) (times : Nat → Int) (cache : Cache)
        (s : String), args.file_num = some s → s ≠ "" →
      ∃ rest, (daemon_iteration env args interval times cache).2.2 =
        CallEv.getFileAttrById s :: rest) := by
  refine ⟨?_, ?_, ?_, ?_⟩
  · intro env args interval times cache code
    by_cases h : (truthyOpt args.file_num || truthyOpt args.directory_path) = true <;>
      simp [daemon_iteration, h]
  · intro env args interval times cache h
    simp [daemon_iteration, h]
  · intro env args interval times cache h
    simp [daemon_iteration, h]
  · intro env args interval times cache s hfn hs
    have htr : truthyOpt args.file_num = true := by simp [hfn, truthyOpt, hs]
    have hcalls : (get_fileinfo env.res args.file_num args.directory_path).2 =
        [CallEv.getFileAttrById s] := by
      rw [hfn]
      exact get_fileinfo_calls_byId env.res s args.directory_path hs
    refine ⟨(stream_notifications env args times cache).calls, ?_⟩
    simp [daemon_iteration, htr, hcalls]

theorem c9_supervisor_witness :
    (daemon_iteration sEnvC9 args0 7 (fun _ => 0) []).1 = DaemonStep.sleepThenContinue 7 ∧
    (daemon_iteration sEnvC9 argsNone 7 (fun _ => 0) []).1 = DaemonStep.sleepThenContinue 5 ∧
    (daemon_iteration sEnvC9 argsFN 7 (fun _ => 0) []).1 ≠ DaemonStep.exited 1 ∧
    (∃ rest, (daemon_iteration sEnvC9 argsFN 7 (fun _ => 0) []).2.2 =
      CallEv.getFileAttrById "42" :: rest) :=
  ⟨c9_supervisor_amended.2.1 sEnvC9 args0 7 (fun _ => 0) [] (by decide),
    c9_supervisor_amended.2.2.1 sEnvC9 argsNone 7 (fun _ => 0) [] (by decide),
    c9_supervisor_amended.1 sEnvC9 argsFN 7 (fun _ => 0) [] 1,
    c9_supervisor_amended.2.2.2 sEnvC9 argsFN 7 (fun _ => 0) [] "42" rfl (by decide)⟩

/- ---------------------------------------------------------------------------
Witnesses for the lock_file claims.
--------------------------------------------------------------------------- -/

theorem c1_witness :
    (lock_file envOk args0 "/vault/docs/new.txt" [] 0 5).result = LockResult.locked ∧
    countModify (lock_file envOk args0 "/vault/docs/new.txt" [] 0 5).calls = 1 ∧
    (lock_file envOk args0 "/vault/docs/new.txt"
      (lock_file envOk args0 "/vault/docs/new.txt" [] 0 5).cache 3 5).result =
      LockResult.skippedCooldown ∧
    (lock_file envOk args0 "/vault/docs/new.txt"
      (lock_file envOk args0 "/vault/docs/new.txt" [] 0 5).cache 3 5).calls = [] ∧
    countModify ((lock_file envOk args0 "/vault/docs/new.txt" [] 0 5).calls ++
      (lock_file envOk args0 "/vault/docs/new.txt"
        (lock_file envOk args0 "/vault/docs/new.txt" [] 0 5).cache 3 5).calls) = 1 :=
  c1_cooldown_idempotence envOk envOk args0 "/vault/docs/new.txt" [] 0 3 attrFile
    "FS_FILE_TYPE_FILE" (by decide) (by decide) rfl rfl rfl (by decide) rfl (by decide)

theorem c2_witness :
    ((lock_file envRPCFail args0 "/vault/docs/new.txt" [] 0 5).result =
        LockResult.failedMaxRetries ∧
      countModify (lock_file envRPCFail args0 "/vault/docs/new.txt" [] 0 5).calls = 3 ∧
      (lock_file envRPCFail args0 "/vault/docs/new.txt" [] 0 5).sleeps = [2, 2, 2]) ∧
    ((lock_file envOk args0 "/vault/docs/new.txt" [] 0 5).result = LockResult.locked ∧
      countModify (lock_file envOk args0 "/vault/docs/new.txt" [] 0 5).calls = 0 + 1) :=
  ⟨c2_retry_bound.1 envRPCFail args0 "/vault/docs/new.txt" [] 0 5 attrFile
      "FS_FILE_TYPE_FILE" (by decide) (by decide) rfl rfl rfl (by decide)
      (fun _ => ⟨.requestException, rfl⟩),
    c2_retry_bound.2 envOk args0 "/vault/docs/new.txt" [] 0 5 attrFile
      "FS_FILE_TYPE_FILE" 0 (by decide) (by decide) rfl rfl rfl (by decide) (by omega)
      (fun j hj => absurd hj (by omega)) rfl⟩

theorem c3_witness :
    lock_file envDir args0 "/vault/docs/sub" [] 0 5 =
      ⟨.skippedDirectory, [], [CallEv.getFileAttr (collapseStr "/vault/docs/sub")], []⟩ ∧
    (∃ v ty, attrFetched envOk = some v ∧ v.isDict = true ∧ v.type_ = some ty ∧
      ty ≠ "FS_FILE_TYPE_DIRECTORY") :=
  ⟨c3_directory_excluded.1 envDir args0 "/vault/docs/sub" [] 0 5
      ⟨true, some "FS_FILE_TYPE_DIRECTORY"⟩ (by decide) (by decide) rfl rfl rfl,
    c3_directory_excluded.2 envOk args0 "/vault/docs/new.txt" [] 0 5
      (collapseStr "/vault/docs/new.txt") (retentionOf envOk args0) args0.legal_hold
      (by decide)⟩

theorem c8_witness :
    (lock_file envOk args0 "/vault/docs/new.txt" [] 0 5).cache =
      cacheSet [] (collapseStr "/vault/docs/new.txt") 0 ∧
    (lock_file envDir args0 "/vault/docs/sub" [] 0 5).cache = [] :=
  ⟨(c8_dedup_cache_monotone envOk args0 "/vault/docs/new.txt" [] 0 5).1 (by decide),
    (c8_dedup_cache_monotone envDir args0 "/vault/docs/sub" [] 0 5).2.1 (by decide)⟩

end Qfs
